import Mathlib

/-!
Verification of `src/vs/workbench/contrib/accessibility/browser/accessibility.contribution.ts`.

The file shallowly embeds the two workbench contributions of that source file —
`AccessibilityHelpProvider` with the `EditorAccessibilityHelpContribution` handler, and the
`HoverAccessibileViewContribution` handler — together with the collaborators they touch.
Collaborators that live outside the source file (the NLS string table, the keybinding
service, the code-editor service, the command service, the accessible-view registry and the
prioritized-action dispatcher) are modelled as explicit data: opaque strings, `Option`
values for nullable lookups, and effect traces for service calls.
-/

namespace VSAccess

/-- Tri-state accessibility-support editor setting
(`AccessibilitySupport` of vs/platform/accessibility, outside this file). -/
inductive AccessibilitySupport
  | Unknown
  | Disabled
  | Enabled
deriving DecidableEq, Repr

/-- Message table `AccessibilityHelpNLS` (vs/editor/common/standaloneStrings, outside this
file): each localized message is kept as an opaque string field. -/
structure AccessibilityHelpNLS where
  accessibilityHelpTitle : String
  readonlyDiffEditor : String
  editableDiffEditor : String
  readonlyEditor : String
  editableEditor : String
  changeConfigToOnMac : String
  changeConfigToOnWinLinux : String
  auto_on : String
  auto_off : String
  tabFocusModeOnMsg : String
  tabFocusModeOnMsgNoKb : String
  tabFocusModeOffMsg : String
  tabFocusModeOffMsgNoKb : String
deriving DecidableEq, Repr

/-- The snapshot of editor options that `provideContent` reads through
`options.get (EditorOption...)`. -/
structure EditorOptionsState where
  inDiffEditor : Bool
  readOnly : Bool
  accessibilitySupport : AccessibilitySupport
  tabFocusMode : Bool
deriving DecidableEq, Repr

/-- A resolved keybinding, reduced to the only facet the source uses: `getAriaLabel()`. -/
structure ResolvedKeybinding where
  ariaLabel : String
deriving DecidableEq, Repr

/-- The keybinding service facet used by the source: `lookupKeybinding(commandId)`,
which may find no keybinding (`undefined`, modelled as `none`). -/
structure KeybindingService where
  lookupKeybinding : String → Option ResolvedKeybinding

/-- Modelled from the spec: the single-argument use of the string formatter
(`strings.format` of vs/base/common/strings, outside this file) — the message with the
argument substituted for its `{0}` placeholder. -/
def format (value arg : String) : String :=
  String.intercalate arg (value.splitOn "{0}")

/-- Modelled from the spec: the command identifier of the "toggle tab focus mode" action
(`ToggleTabFocusModeAction.ID` of vs/editor/contrib/toggleTabFocusMode, outside this
file). Its concrete value never matters below; only that it is the raw command id. -/
def toggleTabFocusModeActionId : String := "editor.action.toggleTabFocusMode"

/-- Embedding of `AccessibilityHelpProvider._descriptionForCommand` (source lines 51-57):
if the keybinding service resolves a keybinding for the command the message is formatted
with the keybinding's aria label, otherwise the no-keybinding message is formatted with
the raw command id. -/
def descriptionForCommand (kbService : KeybindingService)
    (commandId msg noKbMsg : String) : String :=
  match kbService.lookupKeybinding commandId with
  | some kb => format msg kb.ariaLabel
  | none => format noKbMsg commandId

/-- Embedding of the `content` array built by `AccessibilityHelpProvider.provideContent`
(source lines 59-99): the sequence of pushes, in source order. `isMacintosh` is
`platform.isMacintosh`. -/
def provideContentLines (nls : AccessibilityHelpNLS) (isMacintosh : Bool)
    (kbService : KeybindingService) (options : EditorOptionsState) : List String :=
  let content : List String := [nls.accessibilityHelpTitle]
  let content := content ++
    [if options.inDiffEditor then
      if options.readOnly then nls.readonlyDiffEditor else nls.editableDiffEditor
    else
      if options.readOnly then nls.readonlyEditor else nls.editableEditor]
  let turnOnMessage :=
    if isMacintosh then nls.changeConfigToOnMac else nls.changeConfigToOnWinLinux
  let content := content ++
    (match options.accessibilitySupport with
    | AccessibilitySupport.Unknown => [turnOnMessage]
    | AccessibilitySupport.Enabled => [nls.auto_on]
    | AccessibilitySupport.Disabled => [nls.auto_off, turnOnMessage])
  let content := content ++
    [if options.tabFocusMode then
      descriptionForCommand kbService toggleTabFocusModeActionId
        nls.tabFocusModeOnMsg nls.tabFocusModeOnMsgNoKb
    else
      descriptionForCommand kbService toggleTabFocusModeActionId
        nls.tabFocusModeOffMsg nls.tabFocusModeOffMsgNoKb]
  content

/-- Embedding of `AccessibilityHelpProvider.provideContent` (source lines 59-101):
the pushed lines joined with newline separators (`content.join('\n')`). -/
def provideContent (nls : AccessibilityHelpNLS) (isMacintosh : Bool)
    (kbService : KeybindingService) (options : EditorOptionsState) : String :=
  String.intercalate "\n" (provideContentLines nls isMacintosh kbService options)

/-- Options record `IAccessibleViewOptions` of a content provider. -/
structure AccessibleViewOptions where
  isHelpMenu : Bool := false
  ariaLabel : String := ""
  readMoreUrl : Option String := none
  language : Option String := none
deriving DecidableEq, Repr

/-- The default accessibility help URL the constructor falls back to (source line 46). -/
def defaultAccessibilityHelpUrl : String := "https://go.microsoft.com/fwlink/?linkid=852450"

/-- The hover controller facet used by the source (`ModesHoverController`, outside this
file): `getWidgetContents()` possibly returning no content; `withNullAsUndefined`
collapses `null` into `undefined`, so `none` stands for both. -/
structure HoverController where
  widgetContents : Option String
deriving DecidableEq, Repr

/-- A code editor, reduced to the facets the source reads: the raw
`accessibilityHelpUrl` option (`getRawOptions()`, `undefined` as `none`), the
`getOptions()` snapshot, and the hover controller attached to it
(`ModesHoverController.get(editor)`, `none` when absent). -/
structure CodeEditor where
  accessibilityHelpUrl : Option String
  options : EditorOptionsState
  hoverController : Option HoverController
deriving DecidableEq, Repr

/-- The state an `AccessibilityHelpProvider` instance holds after its constructor ran. -/
structure AccessibilityHelpProviderState where
  editor : CodeEditor
  id : String
  options : AccessibleViewOptions
deriving DecidableEq, Repr

/-- Embedding of the `AccessibilityHelpProvider` field initializers and constructor
(source lines 32-49): `id` is `'editor'`, `options` starts as
`{ isHelpMenu: true, ariaLabel: ... }`, then the constructor sets `readMoreUrl` to the
editor's raw `accessibilityHelpUrl` option, or to the fixed default URL when that option
is `undefined`. -/
def mkAccessibilityHelpProvider (editor : CodeEditor) : AccessibilityHelpProviderState :=
  let url := match editor.accessibilityHelpUrl with
    | none => defaultAccessibilityHelpUrl
    | some u => u
  { editor := editor
    id := "editor"
    options :=
      { isHelpMenu := true
        ariaLabel := "terminal accessibility help"
        readMoreUrl := some url } }

/-- The code-editor service facet used by the handlers: `getActiveCodeEditor()` and
`getFocusedCodeEditor()`, each possibly `null` (modelled as `none`). -/
structure CodeEditorService where
  activeCodeEditor : Option CodeEditor
  focusedCodeEditor : Option CodeEditor
deriving DecidableEq, Repr

/-- JavaScript `a || b` on nullable object values: the first operand unless it is
null/undefined. -/
def jsOr (a b : Option α) : Option α :=
  match a with
  | some x => some x
  | none => b

/-- Modelled from the spec: the command id `NEW_UNTITLED_FILE_COMMAND_ID`
(vs/workbench/contrib/files fileConstants, outside this file), the "create a blank
document first" fallback command. -/
def newUntitledFileCommandId : String := "workbench.action.files.newUntitledFile"

/-- One call a handler makes against its collaborator services, recorded as a trace
element: `executeCommand` on the command service, `registerProvider` (with the
registered provider's id) and `showSlot` on the accessible-view service. -/
inductive ServiceCall
  | executeCommand (commandId : String)
  | registerProvider (providerId : String)
  | showSlot (slotId : String)
deriving DecidableEq, Repr

/-- Outcome of one run of the editor-help action implementation: the value the async
handler resolved with (`none`: no boolean was returned — the function body has no
return statement), the service calls it made in order, and the provider instance it
registered, when it got that far. -/
structure EditorHelpRun where
  result : Option Bool
  calls : List ServiceCall
  registered : Option AccessibilityHelpProviderState
deriving DecidableEq, Repr

/-- Embedding of the `EditorAccessibilityHelpContribution` handler (source lines
108-120), registered at priority 100 for surface `'editor'`. `execNewUntitled` is the
effect of `commandService.executeCommand(NEW_UNTITLED_FILE_COMMAND_ID)` on the
code-editor service state. The source reads the new active editor through a non-null
assertion (`getActiveCodeEditor()!`); when that editor is still missing, constructing
the provider faults on the null editor before any further service call, which the model
renders as a run that stops after the command. The handler body never returns a value,
so `result` is `none` on every path. -/
def editorHelpHandler (execNewUntitled : CodeEditorService → CodeEditorService)
    (svc : CodeEditorService) : EditorHelpRun :=
  match jsOr svc.activeCodeEditor svc.focusedCodeEditor with
  | some codeEditor =>
    { result := none
      calls := [ServiceCall.registerProvider "editor", ServiceCall.showSlot "editor"]
      registered := some (mkAccessibilityHelpProvider codeEditor) }
  | none =>
    let post := execNewUntitled svc
    match post.activeCodeEditor with
    | some codeEditor =>
      { result := none
        calls := [ServiceCall.executeCommand newUntitledFileCommandId,
                  ServiceCall.registerProvider "editor", ServiceCall.showSlot "editor"]
        registered := some (mkAccessibilityHelpProvider codeEditor) }
    | none =>
      { result := none
        calls := [ServiceCall.executeCommand newUntitledFileCommandId]
        registered := none }

/-- The provider object the hover handler registers (source lines 148-156): its id and
its `provideContent` closure. The closure is modelled as a function of the hover
widget's contents at the time `provideContent` is later called, so that insensitivity
to later widget changes is expressible; the source closure ignores that state and
returns the captured `hoverContent`. -/
structure HoverProvider where
  id : String
  provideContent : Option String → String

/-- Outcome of one run of the hover action implementation: the boolean the handler
returned (`some` on every path — the body always returns `false` or `true`), the
service calls it made in order, and the provider it registered, if any. -/
structure HoverRun where
  result : Option Bool
  calls : List ServiceCall
  registered : Option HoverProvider

/-- Embedding of the `HoverAccessibileViewContribution` handler (source lines 133-159),
registered at priority 90 for surface `'hover'`. It picks the active-or-focused editor;
with no editor, no hover controller, or falsy widget contents (`undefined`, `null` or
the empty string — `!hoverContent`) it returns `false` without touching the
accessible-view service; otherwise it registers a provider with id `'hover'` whose
`provideContent` closure returns the captured contents, shows the `'hover'` slot and
returns `true`. -/
def hoverHandler (svc : CodeEditorService) : HoverRun :=
  match jsOr svc.activeCodeEditor svc.focusedCodeEditor with
  | none => { result := some false, calls := [], registered := none }
  | some editor =>
    match editor.hoverController with
    | none => { result := some false, calls := [], registered := none }
    | some controller =>
      match controller.widgetContents with
      | none => { result := some false, calls := [], registered := none }
      | some hoverContent =>
        if hoverContent = "" then
          { result := some false, calls := [], registered := none }
        else
          { result := some true
            calls := [ServiceCall.registerProvider "hover", ServiceCall.showSlot "hover"]
            registered := some { id := "hover", provideContent := fun _ => hoverContent } }

/-- Modelled from the spec: the ProviderRegistry (`AccessibleViewService` of
accessibleView.ts, outside this file) keyed by slot id — at most one active provider per
slot, `registerProvider` stores the provider under its own id, `show` on an empty slot
is the `NotRegistered` error path. Providers are tracked by id, the only facet `show`
consults. -/
structure ProviderRegistry where
  active : String → Option String

/-- Modelled from the spec: the registry event of interest — `show` called on a slot
with no registered provider (`NotRegistered`). -/
inductive RegistryEvent
  | notRegistered (slotId : String)
deriving DecidableEq, Repr

/-- Modelled from the spec: the registry's reaction to one service call.
`executeCommand` does not touch the registry; `registerProvider p` makes `p` the active
provider of slot `p.id`; `show s` reports `NotRegistered s` exactly when slot `s` is
empty. -/
def runCall (reg : ProviderRegistry) : ServiceCall → ProviderRegistry × List RegistryEvent
  | ServiceCall.executeCommand _ => (reg, [])
  | ServiceCall.registerProvider pid =>
    ({ active := fun s => if s = pid then some pid else reg.active s }, [])
  | ServiceCall.showSlot s =>
    match reg.active s with
    | some _ => (reg, [])
    | none => (reg, [RegistryEvent.notRegistered s])

/-- Modelled from the spec: running a whole call trace against the registry, collecting
the events it reports. -/
def runCalls (reg : ProviderRegistry) : List ServiceCall → ProviderRegistry × List RegistryEvent
  | [] => (reg, [])
  | c :: cs =>
    let step := runCall reg c
    let rest := runCalls step.1 cs
    (rest.1, step.2 ++ rest.2)

/-- Checks a call trace for the shape C10 describes: every `showSlot s` is immediately
preceded by a `registerProvider` whose provider id equals `s`. -/
def showsCovered : List ServiceCall → Bool
  | [] => true
  | ServiceCall.registerProvider pid :: ServiceCall.showSlot s :: rest =>
    decide (s = pid) && showsCovered rest
  | ServiceCall.showSlot _ :: _ => false
  | _ :: rest => showsCovered rest

/-- Modelled from the spec (§3, §4.1): one registered implementation of a prioritized
action — a priority, a surface id, and a handler that may return a boolean or fault
(throw / reject), rendered as `Except`. -/
structure ActionImplementation (Ctx : Type) where
  priority : Int
  surfaceId : String
  handler : Ctx → Except String Bool

/-- Modelled from the spec (§4.1): `addImplementation` inserts keeping the list sorted
by priority descending, earlier registration first among equal priorities. -/
def addImplementation {Ctx : Type} (impls : List (ActionImplementation Ctx))
    (impl : ActionImplementation Ctx) : List (ActionImplementation Ctx) :=
  match impls with
  | [] => [impl]
  | first :: rest =>
    if impl.priority ≤ first.priority then first :: addImplementation rest impl
    else impl :: first :: rest

/-- Modelled from the spec (§4.1, §7): `invoke` walks the implementations in order; a
handler resolving `true` stops the walk with `true`; a handler resolving `false` or
faulting is passed over and the walk continues; an empty remainder yields `false`. The
return type being `Bool` (not `Except`) renders "no exception escapes `invoke`". -/
def invoke {Ctx : Type} : List (ActionImplementation Ctx) → Ctx → Bool
  | [], _ => false
  | impl :: rest, ctx =>
    match impl.handler ctx with
    | Except.ok true => true
    | Except.ok false => invoke rest ctx
    | Except.error _ => invoke rest ctx

/-- Claim-side selector (C1's words): the editor-mode message chosen by the pair of
booleans `(inDiffEditor, readOnly)`. -/
def claimEditorModeMessage (nls : AccessibilityHelpNLS) : Bool → Bool → String
  | true, true => nls.readonlyDiffEditor
  | true, false => nls.editableDiffEditor
  | false, true => nls.readonlyEditor
  | false, false => nls.editableEditor

/-- Claim-side selector (C1's words): the turn-on hint is the Mac variant on macOS and
the Windows/Linux variant otherwise. -/
def claimTurnOnHint (nls : AccessibilityHelpNLS) (isMacintosh : Bool) : String :=
  if isMacintosh then nls.changeConfigToOnMac else nls.changeConfigToOnWinLinux

/-- Claim-side selector (C1's words): the accessibility-support line(s) chosen by the
tri-state setting — Enabled: `auto_on`; Disabled: `auto_off` plus the turn-on hint;
Unknown: the turn-on hint. -/
def claimSupportLines (nls : AccessibilityHelpNLS) (isMacintosh : Bool) :
    AccessibilitySupport → List String
  | AccessibilitySupport.Enabled => [nls.auto_on]
  | AccessibilitySupport.Disabled => [nls.auto_off, claimTurnOnHint nls isMacintosh]
  | AccessibilitySupport.Unknown => [claimTurnOnHint nls isMacintosh]

/-- Claim-side selector (C1's words): the single tab-focus-mode line, chosen by the
tab-focus-mode flag, each variant built by `_descriptionForCommand` for the toggle
command. -/
def claimTabFocusLine (nls : AccessibilityHelpNLS) (kbService : KeybindingService)
    (tabFocusMode : Bool) : String :=
  if tabFocusMode then
    descriptionForCommand kbService toggleTabFocusModeActionId
      nls.tabFocusModeOnMsg nls.tabFocusModeOnMsgNoKb
  else
    descriptionForCommand kbService toggleTabFocusModeActionId
      nls.tabFocusModeOffMsg nls.tabFocusModeOffMsgNoKb

/-- C1: for every editor option state, `provideContent` returns the newline-join of, in
this fixed order: the help title; exactly one of the four editor-mode messages selected
by the pair `(inDiffEditor, readOnly)`; the accessibility-support line(s) selected by
the tri-state setting (Enabled: `auto_on`; Disabled: `auto_off` plus the turn-on hint;
Unknown: the turn-on hint), the hint being the Mac variant on macOS and the
Windows/Linux variant otherwise; then exactly one tab-focus-mode line. -/
theorem provideContent_line_structure (nls : AccessibilityHelpNLS) (isMacintosh : Bool)
    (kbService : KeybindingService) (options : EditorOptionsState) :
    provideContent nls isMacintosh kbService options =
      String.intercalate "\n"
        (nls.accessibilityHelpTitle ::
          claimEditorModeMessage nls options.inDiffEditor options.readOnly ::
          (claimSupportLines nls isMacintosh options.accessibilitySupport ++
            [claimTabFocusLine nls kbService options.tabFocusMode])) := by
  obtain ⟨d, r, a, t⟩ := options
  cases d <;> cases r <;> cases a <;> cases t <;>
    simp [provideContent, provideContentLines, claimEditorModeMessage, claimSupportLines,
      claimTurnOnHint, claimTabFocusLine]

/-- Joining five lines with newline separators, written out. -/
theorem intercalate_five (a b c d e : String) :
    String.intercalate "\n" [a, b, c, d, e] =
      a ++ "\n" ++ b ++ "\n" ++ c ++ "\n" ++ d ++ "\n" ++ e := rfl

/-- C2: in diff mode, read-only, accessibility-support Disabled, tab-focus-mode on, with
a keybinding of aria label "Alt+F1" resolved for the toggle-tab-focus command,
`provideContent` returns exactly the sequence: title; `readonlyDiffEditor`; `auto_off`
followed by the OS-appropriate turn-on hint; the tab-focus-on message with "Alt+F1"
substituted — joined by newlines (the `auto_off` message and the hint are successive
newline-separated entries). -/
theorem provideContent_scenario_diff_readonly_disabled
    (nls : AccessibilityHelpNLS) (isMacintosh : Bool) (kbService : KeybindingService)
    (kb : ResolvedKeybinding)
    (hkb : kbService.lookupKeybinding toggleTabFocusModeActionId = some kb)
    (hlabel : kb.ariaLabel = "Alt+F1") :
    provideContent nls isMacintosh kbService
        { inDiffEditor := true, readOnly := true,
          accessibilitySupport := AccessibilitySupport.Disabled, tabFocusMode := true } =
      nls.accessibilityHelpTitle ++ "\n" ++ nls.readonlyDiffEditor ++ "\n" ++
        nls.auto_off ++ "\n" ++ claimTurnOnHint nls isMacintosh ++ "\n" ++
        format nls.tabFocusModeOnMsg "Alt+F1" := by
  simp [provideContent, provideContentLines, descriptionForCommand, hkb, hlabel,
    claimTurnOnHint, intercalate_five]

/-- A concrete NLS table for witnesses; each message is a distinct string and the
formatted messages carry a placeholder. -/
def exampleNls : AccessibilityHelpNLS :=
  { accessibilityHelpTitle := "Help title"
    readonlyDiffEditor := "readonly diff editor msg"
    editableDiffEditor := "editable diff editor msg"
    readonlyEditor := "readonly editor msg"
    editableEditor := "editable editor msg"
    changeConfigToOnMac := "turn on hint mac"
    changeConfigToOnWinLinux := "turn on hint win linux"
    auto_on := "auto on msg"
    auto_off := "auto off msg"
    tabFocusModeOnMsg := "tab focus on, press {0}"
    tabFocusModeOnMsgNoKb := "tab focus on, command {0} unbound"
    tabFocusModeOffMsg := "tab focus off, press {0}"
    tabFocusModeOffMsgNoKb := "tab focus off, command {0} unbound" }

/-- A keybinding service resolving every command to a keybinding labelled "Alt+F1". -/
def altF1Keybindings : KeybindingService :=
  { lookupKeybinding := fun _ => some { ariaLabel := "Alt+F1" } }

/-- A keybinding service resolving no command at all. -/
def emptyKeybindings : KeybindingService :=
  { lookupKeybinding := fun _ => none }

/-- Witness for C2 at a concrete NLS table, OS and keybinding service. -/
theorem provideContent_scenario_diff_readonly_disabled_witness :
    provideContent exampleNls false altF1Keybindings
        { inDiffEditor := true, readOnly := true,
          accessibilitySupport := AccessibilitySupport.Disabled, tabFocusMode := true } =
      exampleNls.accessibilityHelpTitle ++ "\n" ++ exampleNls.readonlyDiffEditor ++ "\n" ++
        exampleNls.auto_off ++ "\n" ++ claimTurnOnHint exampleNls false ++ "\n" ++
        format exampleNls.tabFocusModeOnMsg "Alt+F1" :=
  provideContent_scenario_diff_readonly_disabled exampleNls false altF1Keybindings
    { ariaLabel := "Alt+F1" } rfl rfl

/-- C6: the tab-focus description line for a command id is the keybinding message with
the resolved keybinding's aria label substituted when the keybinding service resolves
one, and the no-keybinding message with the raw command id substituted when it does
not. -/
theorem descriptionForCommand_cases (kbService : KeybindingService)
    (commandId msg noKbMsg : String) :
    (∀ kb, kbService.lookupKeybinding commandId = some kb →
      descriptionForCommand kbService commandId msg noKbMsg = format msg kb.ariaLabel) ∧
    (kbService.lookupKeybinding commandId = none →
      descriptionForCommand kbService commandId msg noKbMsg = format noKbMsg commandId) := by
  constructor
  · intro kb hkb
    simp [descriptionForCommand, hkb]
  · intro hkb
    simp [descriptionForCommand, hkb]

/-- Witness for C6: both branches at concrete keybinding services and messages. -/
theorem descriptionForCommand_cases_witness :
    descriptionForCommand altF1Keybindings "cmd.id" "press {0}" "command {0} unbound" =
        format "press {0}" "Alt+F1" ∧
    descriptionForCommand emptyKeybindings "cmd.id" "press {0}" "command {0} unbound" =
        format "command {0} unbound" "cmd.id" :=
  ⟨(descriptionForCommand_cases altF1Keybindings "cmd.id" "press {0}"
      "command {0} unbound").1 { ariaLabel := "Alt+F1" } rfl,
    (descriptionForCommand_cases emptyKeybindings "cmd.id" "press {0}"
      "command {0} unbound").2 rfl⟩

/-- C9: after the `AccessibilityHelpProvider` constructor runs, `options.readMoreUrl` is
defined: it is the editor's raw `accessibilityHelpUrl` option when that option is
defined, and the fixed default URL otherwise. -/
theorem readMoreUrl_always_defined (editor : CodeEditor) :
    ((mkAccessibilityHelpProvider editor).options.readMoreUrl.isSome = true) ∧
    (∀ u, editor.accessibilityHelpUrl = some u →
      (mkAccessibilityHelpProvider editor).options.readMoreUrl = some u) ∧
    (editor.accessibilityHelpUrl = none →
      (mkAccessibilityHelpProvider editor).options.readMoreUrl =
        some defaultAccessibilityHelpUrl) := by
  refine ⟨?_, ?_, ?_⟩
  · cases h : editor.accessibilityHelpUrl <;> simp [mkAccessibilityHelpProvider, h]
  · intro u h
    simp [mkAccessibilityHelpProvider, h]
  · intro h
    simp [mkAccessibilityHelpProvider, h]

/-- A concrete editor with no raw accessibility-help URL, outside a diff editor,
editable, support Unknown, tab focus off, no hover controller. -/
def plainEditor : CodeEditor :=
  { accessibilityHelpUrl := none
    options :=
      { inDiffEditor := false, readOnly := false,
        accessibilitySupport := AccessibilitySupport.Unknown, tabFocusMode := false }
    hoverController := none }

/-- Witness for C9: the default-URL branch at a concrete editor. -/
theorem readMoreUrl_always_defined_witness :
    (mkAccessibilityHelpProvider plainEditor).options.readMoreUrl =
      some defaultAccessibilityHelpUrl :=
  (readMoreUrl_always_defined plainEditor).2.2 rfl

/-- C3: a handler that faults is, from `invoke`'s perspective, a handler that returns
false — `invoke` continues to the next implementation and its value is unchanged when
the faulting handler is replaced by a false-returning one, or dropped altogether; and,
`invoke` returning a plain boolean, no exception escapes it. -/
theorem invoke_fault_isolated {Ctx : Type} (pre post : List (ActionImplementation Ctx))
    (impl : ActionImplementation Ctx) (ctx : Ctx) (e : String)
    (h : impl.handler ctx = Except.error e) :
    invoke (pre ++ impl :: post) ctx =
      invoke (pre ++ { impl with handler := fun _ => Except.ok false } :: post) ctx ∧
    invoke (pre ++ impl :: post) ctx = invoke (pre ++ post) ctx := by
  induction pre with
  | nil => simp [invoke, h]
  | cons first rest ih =>
    obtain ⟨ih1, ih2⟩ := ih
    have ih3 := ih1.symm.trans ih2
    simp only [List.cons_append, invoke]
    cases hf : first.handler ctx with
    | ok b => cases b <;> simp [ih1, ih2, ih3]
    | error e2 => simp [ih1, ih2, ih3]

/-- An implementation whose handler declines. -/
def exImplFalse : ActionImplementation Unit :=
  { priority := 100, surfaceId := "a", handler := fun _ => Except.ok false }

/-- An implementation whose handler faults. -/
def exImplFault : ActionImplementation Unit :=
  { priority := 90, surfaceId := "b", handler := fun _ => Except.error "boom" }

/-- An implementation whose handler succeeds. -/
def exImplTrue : ActionImplementation Unit :=
  { priority := 80, surfaceId := "c", handler := fun _ => Except.ok true }

/-- Witness for C3 at a concrete three-implementation chain with a faulting middle
handler. -/
theorem invoke_fault_isolated_witness :
    invoke [exImplFalse, exImplFault, exImplTrue] () =
      invoke [exImplFalse,
        { exImplFault with handler := fun _ => Except.ok false }, exImplTrue] () ∧
    invoke [exImplFalse, exImplFault, exImplTrue] () =
      invoke [exImplFalse, exImplTrue] () :=
  invoke_fault_isolated [exImplFalse] [exImplTrue] exImplFault () "boom" rfl

/-- C4: whenever there is no active-or-focused code editor, or the editor has no hover
controller, or the widget contents are absent or empty, the hover implementation
returns false and makes no service call — in particular neither `registerProvider` nor
`show` is called. -/
theorem hoverHandler_not_applicable (svc : CodeEditorService)
    (h : jsOr svc.activeCodeEditor svc.focusedCodeEditor = none ∨
      ∃ ed, jsOr svc.activeCodeEditor svc.focusedCodeEditor = some ed ∧
        (ed.hoverController = none ∨
          ∃ c, ed.hoverController = some c ∧
            (c.widgetContents = none ∨ c.widgetContents = some ""))) :
    (hoverHandler svc).result = some false ∧ (hoverHandler svc).calls = [] := by
  rcases h with h | ⟨ed, hed, hc | ⟨c, hc, hw | hw⟩⟩
  · simp [hoverHandler, h]
  · simp [hoverHandler, hed, hc]
  · simp [hoverHandler, hed, hc, hw]
  · simp [hoverHandler, hed, hc, hw]

/-- A code-editor service with neither an active nor a focused editor. -/
def noEditorService : CodeEditorService :=
  { activeCodeEditor := none, focusedCodeEditor := none }

/-- Witness for C4 at the no-editor service state. -/
theorem hoverHandler_not_applicable_witness :
    (hoverHandler noEditorService).result = some false ∧
    (hoverHandler noEditorService).calls = [] :=
  hoverHandler_not_applicable noEditorService (Or.inl rfl)

/-- A code-editor service whose active editor is the plain example editor. -/
def activeEditorService : CodeEditorService :=
  { activeCodeEditor := some plainEditor, focusedCodeEditor := none }

/-- C5 counterexample: at a service state with an active editor, the editor-help
implementation takes its opening path — its trace registers the provider and shows the
view — yet its result is not `true`: the async handler body has no return statement and
resolves with no boolean at all. -/
theorem editorHelpHandler_opens_without_true :
    (editorHelpHandler id activeEditorService).calls =
      [ServiceCall.registerProvider "editor", ServiceCall.showSlot "editor"] ∧
    (editorHelpHandler id activeEditorService).result ≠ some true ∧
    (editorHelpHandler id activeEditorService).result = none := by
  refine ⟨rfl, ?_, rfl⟩
  decide

/-- C5 (amended): the hover implementation (priority 90) returns a boolean on every
path — `true` exactly on the path where it opens the view (registers the hover provider
and shows the slot), `false` otherwise; the editor-help implementation (priority 100)
returns no boolean on any path, its handler resolving with undefined even when it opens
the view. -/
theorem handler_result_discipline (execNewUntitled : CodeEditorService → CodeEditorService)
    (svc : CodeEditorService) :
    ((hoverHandler svc).result = some true ∨ (hoverHandler svc).result = some false) ∧
    ((hoverHandler svc).result = some true ↔
      (hoverHandler svc).calls =
        [ServiceCall.registerProvider "hover", ServiceCall.showSlot "hover"]) ∧
    (editorHelpHandler execNewUntitled svc).result = none := by
  refine ⟨?_, ?_, ?_⟩
  · cases hed : jsOr svc.activeCodeEditor svc.focusedCodeEditor with
    | none => simp [hoverHandler, hed]
    | some ed =>
      cases hc : ed.hoverController with
      | none => simp [hoverHandler, hed, hc]
      | some c =>
        cases hw : c.widgetContents with
        | none => simp [hoverHandler, hed, hc, hw]
        | some s =>
          by_cases hs : s = "" <;> simp [hoverHandler, hed, hc, hw, hs]
  · cases hed : jsOr svc.activeCodeEditor svc.focusedCodeEditor with
    | none => simp [hoverHandler, hed]
    | some ed =>
      cases hc : ed.hoverController with
      | none => simp [hoverHandler, hed, hc]
      | some c =>
        cases hw : c.widgetContents with
        | none => simp [hoverHandler, hed, hc, hw]
        | some s =>
          by_cases hs : s = "" <;> simp [hoverHandler, hed, hc, hw, hs]
  · cases hed : jsOr svc.activeCodeEditor svc.focusedCodeEditor with
    | none =>
      cases hpost : (execNewUntitled svc).activeCodeEditor <;>
        simp [editorHelpHandler, hed, hpost]
    | some ed => simp [editorHelpHandler, hed]

/-- Witness for the amended C5 at the active-editor service state: the hover handler
returns a boolean there and the editor-help handler returns none. -/
theorem handler_result_discipline_witness :
    (((hoverHandler activeEditorService).result = some true ∨
        (hoverHandler activeEditorService).result = some false) ∧
      ((hoverHandler activeEditorService).result = some true ↔
        (hoverHandler activeEditorService).calls =
          [ServiceCall.registerProvider "hover", ServiceCall.showSlot "hover"]) ∧
      (editorHelpHandler id activeEditorService).result = none) :=
  handler_result_discipline id activeEditorService

/-- C7: when the editor-help implementation runs with no active and no focused code
editor, it first executes the new-untitled-file command, then registers an
`AccessibilityHelpProvider` built on the resulting active editor, then shows the
`'editor'` slot. -/
theorem editorHelp_no_editor_fallback
    (execNewUntitled : CodeEditorService → CodeEditorService) (svc : CodeEditorService)
    (ed : CodeEditor) (hactive : svc.activeCodeEditor = none)
    (hfocused : svc.focusedCodeEditor = none)
    (hpost : (execNewUntitled svc).activeCodeEditor = some ed) :
    (editorHelpHandler execNewUntitled svc).calls =
      [ServiceCall.executeCommand newUntitledFileCommandId,
        ServiceCall.registerProvider "editor", ServiceCall.showSlot "editor"] ∧
    (editorHelpHandler execNewUntitled svc).registered =
      some (mkAccessibilityHelpProvider ed) := by
  simp [editorHelpHandler, jsOr, hactive, hfocused, hpost]

/-- The effect of the new-untitled-file command in the witness: it makes the plain
example editor active. -/
def openUntitledEditor : CodeEditorService → CodeEditorService :=
  fun _ => { activeCodeEditor := some plainEditor, focusedCodeEditor := none }

/-- Witness for C7 at the no-editor service state with a command that opens the plain
example editor. -/
theorem editorHelp_no_editor_fallback_witness :
    (editorHelpHandler openUntitledEditor noEditorService).calls =
      [ServiceCall.executeCommand newUntitledFileCommandId,
        ServiceCall.registerProvider "editor", ServiceCall.showSlot "editor"] ∧
    (editorHelpHandler openUntitledEditor noEditorService).registered =
      some (mkAccessibilityHelpProvider plainEditor) :=
  editorHelp_no_editor_fallback openUntitledEditor noEditorService plainEditor rfl rfl rfl

/-- C8: when the hover implementation registers a provider, that provider's
`provideContent` is a constant function of the snapshot taken at invocation time: for
every later widget state it returns the contents captured when the implementation
ran. -/
theorem hoverProvider_content_snapshot (svc : CodeEditorService) (ed : CodeEditor)
    (c : HoverController) (s : String)
    (hed : jsOr svc.activeCodeEditor svc.focusedCodeEditor = some ed)
    (hc : ed.hoverController = some c) (hw : c.widgetContents = some s) (hs : s ≠ "") :
    ∃ p, (hoverHandler svc).registered = some p ∧ p.id = "hover" ∧
      ∀ w : Option String, p.provideContent w = s := by
  refine ⟨{ id := "hover", provideContent := fun _ => s }, ?_, rfl, fun _ => rfl⟩
  simp [hoverHandler, hed, hc, hw, hs]

/-- A code editor whose hover controller holds the contents "hover text". -/
def hoverEditor : CodeEditor :=
  { accessibilityHelpUrl := none
    options :=
      { inDiffEditor := false, readOnly := false,
        accessibilitySupport := AccessibilitySupport.Unknown, tabFocusMode := false }
    hoverController := some { widgetContents := some "hover text" } }

/-- A code-editor service whose focused editor is the hover example editor. -/
def hoverEditorService : CodeEditorService :=
  { activeCodeEditor := none, focusedCodeEditor := some hoverEditor }

/-- Witness for C8 at the hover example editor. -/
theorem hoverProvider_content_snapshot_witness :
    ∃ p, (hoverHandler hoverEditorService).registered = some p ∧ p.id = "hover" ∧
      ∀ w : Option String, p.provideContent w = "hover text" :=
  hoverProvider_content_snapshot hoverEditorService hoverEditor
    { widgetContents := some "hover text" } "hover text" rfl rfl rfl (by decide)

/-- C10: on every path of both handlers, each `show` call is immediately preceded by a
`registerProvider` whose provider id equals the shown slot id ("editor" for the
editor-help implementation, "hover" for the hover implementation); consequently running
either handler's call trace against any registry state reports no `NotRegistered`
event. -/
theorem show_only_after_matching_register
    (execNewUntitled : CodeEditorService → CodeEditorService) (svc : CodeEditorService)
    (reg : ProviderRegistry) :
    showsCovered (editorHelpHandler execNewUntitled svc).calls = true ∧
    showsCovered (hoverHandler svc).calls = true ∧
    (runCalls reg (editorHelpHandler execNewUntitled svc).calls).2 = [] ∧
    (runCalls reg (hoverHandler svc).calls).2 = [] := by
  have heditor : showsCovered (editorHelpHandler execNewUntitled svc).calls = true ∧
      (runCalls reg (editorHelpHandler execNewUntitled svc).calls).2 = [] := by
    cases hed : jsOr svc.activeCodeEditor svc.focusedCodeEditor with
    | none =>
      cases hpost : (execNewUntitled svc).activeCodeEditor <;>
        simp [editorHelpHandler, hed, hpost, showsCovered, runCalls, runCall]
    | some ed => simp [editorHelpHandler, hed, showsCovered, runCalls, runCall]
  have hhover : showsCovered (hoverHandler svc).calls = true ∧
      (runCalls reg (hoverHandler svc).calls).2 = [] := by
    cases hed : jsOr svc.activeCodeEditor svc.focusedCodeEditor with
    | none => simp [hoverHandler, hed, showsCovered, runCalls, runCall]
    | some ed =>
      cases hc : ed.hoverController with
      | none => simp [hoverHandler, hed, hc, showsCovered, runCalls, runCall]
      | some c =>
        cases hw : c.widgetContents with
        | none => simp [hoverHandler, hed, hc, hw, showsCovered, runCalls, runCall]
        | some s =>
          by_cases hs : s = "" <;>
            simp [hoverHandler, hed, hc, hw, hs, showsCovered, runCalls, runCall]
  exact ⟨heditor.1, hhover.1, heditor.2, hhover.2⟩

end VSAccess
